import Mathlib

/-!
Verification of the MARV Robotics GNSS nodes (`marv_robotics/gnss.py`) and
detail-section assemblers (`marv_robotics/detail.py`).

The nodes are marv generator coroutines; each node instance consumes its
declared input streams to exhaustion and emits pushes, warnings, logged
errors, an `Abort`, or (for faults the code does not catch) an uncaught
Python exception.  We embed every node as a pure function from its input
stream contents (a list of already-deserialized records) to an explicit
result value recording the header, the pushed items, the warnings logged,
and the abort/exception outcome.

Floating-point values that the code tests with `np.isnan` are embedded as
`RFloat` (a rational or NaN); all other numeric record fields are rationals.
The external `utm.from_latlon` projection and `np.sqrt` are pure external
library functions and are passed in as parameters (`proj`, `msqrt`); the
quaternion mathematics of `yaw_angle` is embedded over the reals.
-/

/-- A float that is either an actual (rational) value or NaN, mirroring the
fields the Python code guards with `np.isnan`. -/
inductive RFloat where
  | nan : RFloat
  | val : ℚ → RFloat
deriving DecidableEq

/-- `np.isnan` on an embedded float. -/
def RFloat.isnan : RFloat → Bool
  | .nan => true
  | .val _ => false

/-- The numeric value of a non-NaN float (junk value 0 for NaN; every use in
the nodes is guarded by an `isnan` check). -/
def RFloat.toQ : RFloat → ℚ
  | .nan => 0
  | .val q => q

/-- One deserialized `sensor_msgs/NavSatFix` record.  `status = none` models
`hasattr(rosmsg, 'status')` being false; `covariance0` is
`position_covariance[0]`. -/
structure NavSatFix where
  stampToSec : ℚ
  latitude : RFloat
  longitude : RFloat
  altitude : RFloat
  status : Option Int
  covariance0 : ℚ
deriving DecidableEq

/-- The skip condition of the `positions` loop, in the code's order:
`not hasattr(rosmsg, 'status') or np.isnan(longitude) or np.isnan(latitude)
or np.isnan(altitude)`. -/
def invalidFix (m : NavSatFix) : Bool :=
  m.status.isNone || m.longitude.isnan || m.latitude.isnan || m.altitude.isnan

/-- One entry of the list accumulated by `positions`:
`[stamp, lat, lon, alt, e, n, u, status, sqrt(cov[0])]`. -/
structure PosTuple where
  stamp : ℚ
  lat : ℚ
  lon : ℚ
  alt : ℚ
  e : ℚ
  n : ℚ
  u : ℚ
  status : Int
  sqrtCov : ℚ
deriving DecidableEq

/-- What a successfully finishing extractor instance produced: the header it
set, the items it pushed (each push is one aggregate `values` list), and the
skip counts of the `skipped %d erroneous messages` warnings it logged. -/
structure ExtractOut (α : Type) where
  header : Option String
  pushed : List (List α)
  warnCounts : List Nat
deriving DecidableEq

/-- Outcome of running one extractor instance: normal completion, an
intentional `marv.Abort` (carrying the error messages logged before it), or
an uncaught Python exception. -/
inductive ExtractResult (α : Type) where
  | ok : ExtractOut α → ExtractResult α
  | abort : List String → ExtractResult α
  | exception : String → ExtractResult α
deriving DecidableEq

/-- `true` exactly on the `abort` outcome. -/
def ExtractResult.isAbort {α : Type} : ExtractResult α → Bool
  | .abort _ => true
  | _ => false

/-- The `while` loop of `positions`: walks the record list carrying the
`(e_offset, n_offset, u_offset)` origin (`none` until the first valid
record), the `erroneous` counter and the accumulated tuples.  As in the
source, the projection is applied as `proj longitude latitude`, i.e. the
record's longitude is passed in `from_latlon`'s latitude slot. -/
def positionsLoop (proj : ℚ → ℚ → ℚ × ℚ) (msqrt : ℚ → ℚ) :
    List NavSatFix → Option (ℚ × ℚ × ℚ) → Nat → List PosTuple →
    Nat × List PosTuple
  | [], _, erroneous, acc => (erroneous, acc)
  | m :: rest, offsets, erroneous, acc =>
    if invalidFix m then
      positionsLoop proj msqrt rest offsets (erroneous + 1) acc
    else
      let en := proj m.longitude.toQ m.latitude.toQ
      let offs := offsets.getD (en.1, en.2, m.altitude.toQ)
      let t : PosTuple :=
        { stamp := m.stampToSec
          lat := m.latitude.toQ
          lon := m.longitude.toQ
          alt := m.altitude.toQ
          e := en.1 - offs.1
          n := en.2 - offs.2.1
          u := m.altitude.toQ - offs.2.2
          status := m.status.getD 0
          sqrtCov := msqrt m.covariance0 }
      positionsLoop proj msqrt rest (some offs) erroneous (acc ++ [t])

/-- The `positions` node on one `foreach` stream instance.  `proj` embeds
`utm.from_latlon` (standard signature: latitude first, longitude second),
`msqrt` embeds `np.sqrt`, `pytype` is the result of
`get_message_class(stream.msg_type)` and `topic` is `stream.topic`.  The
code calls `pytype()` without a `None` check, so an unresolvable message
type raises an uncaught `TypeError` instead of aborting. -/
def positions (proj : ℚ → ℚ → ℚ × ℚ) (msqrt : ℚ → ℚ) (pytype : Option Unit)
    (topic : String) (stream : List NavSatFix) : ExtractResult PosTuple :=
  match pytype with
  | none => .exception "TypeError: NoneType object is not callable"
  | some _ =>
    let r := positionsLoop proj msqrt stream none 0 []
    .ok { header := some topic
          pushed := [r.2]
          warnCounts := if r.1 = 0 then [] else [r.1] }

/-- Modelled from the spec: the same loop with the projection applied to the
`(latitude, longitude)` pair in `from_latlon`'s standard argument order, as
§4.2 of the spec describes it.  Kept separate so the source's argument
order in `positions` can be compared against it. -/
def positionsSpecLoop (proj : ℚ → ℚ → ℚ × ℚ) (msqrt : ℚ → ℚ) :
    List NavSatFix → Option (ℚ × ℚ × ℚ) → Nat → List PosTuple →
    Nat × List PosTuple
  | [], _, erroneous, acc => (erroneous, acc)
  | m :: rest, offsets, erroneous, acc =>
    if invalidFix m then
      positionsSpecLoop proj msqrt rest offsets (erroneous + 1) acc
    else
      let en := proj m.latitude.toQ m.longitude.toQ
      let offs := offsets.getD (en.1, en.2, m.altitude.toQ)
      let t : PosTuple :=
        { stamp := m.stampToSec
          lat := m.latitude.toQ
          lon := m.longitude.toQ
          alt := m.altitude.toQ
          e := en.1 - offs.1
          n := en.2 - offs.2.1
          u := m.altitude.toQ - offs.2.2
          status := m.status.getD 0
          sqrtCov := msqrt m.covariance0 }
      positionsSpecLoop proj msqrt rest (some offs) erroneous (acc ++ [t])

/-- Modelled from the spec: `positions` with the standard projection
argument order of `positionsSpecLoop`. -/
def positionsSpec (proj : ℚ → ℚ → ℚ × ℚ) (msqrt : ℚ → ℚ)
    (pytype : Option Unit) (topic : String) (stream : List NavSatFix) :
    ExtractResult PosTuple :=
  match pytype with
  | none => .exception "TypeError: NoneType object is not callable"
  | some _ =>
    let r := positionsSpecLoop proj msqrt stream none 0 []
    .ok { header := some topic
          pushed := [r.2]
          warnCounts := if r.1 = 0 then [] else [r.1] }

/-- A projection stand-in that just returns its argument pair, used to
observe which argument the code feeds into which slot. -/
def projPair : ℚ → ℚ → ℚ × ℚ := fun a b => (a, b)

/-- A sqrt stand-in for concrete evaluations. -/
def sqrtId : ℚ → ℚ := fun q => q

theorem positionsLoop_fst (proj : ℚ → ℚ → ℚ × ℚ) (msqrt : ℚ → ℚ) :
    ∀ (msgs : List NavSatFix) (offs : Option (ℚ × ℚ × ℚ)) (err : Nat)
      (acc : List PosTuple),
      (positionsLoop proj msqrt msgs offs err acc).1 =
        err + msgs.countP invalidFix
  | [], _, err, acc => by simp [positionsLoop]
  | m :: rest, offs, err, acc => by
    simp only [positionsLoop]
    by_cases h : invalidFix m = true
    · rw [if_pos h, positionsLoop_fst proj msqrt rest]
      simp [List.countP_cons, h]
      omega
    · rw [if_neg h, positionsLoop_fst proj msqrt rest]
      simp [List.countP_cons, h]

theorem positionsLoop_snd_length (proj : ℚ → ℚ → ℚ × ℚ) (msqrt : ℚ → ℚ) :
    ∀ (msgs : List NavSatFix) (offs : Option (ℚ × ℚ × ℚ)) (err : Nat)
      (acc : List PosTuple),
      (positionsLoop proj msqrt msgs offs err acc).2.length =
        acc.length + (msgs.filter (fun m => !invalidFix m)).length
  | [], _, err, acc => by simp [positionsLoop]
  | m :: rest, offs, err, acc => by
    simp only [positionsLoop]
    by_cases h : invalidFix m = true
    · rw [if_pos h, positionsLoop_snd_length proj msqrt rest]
      simp [List.filter_cons, h]
    · rw [if_neg h, positionsLoop_snd_length proj msqrt rest]
      simp [List.filter_cons, h]
      omega

/-- The pushed aggregate lengths of a successful extractor run (`none` when
the run did not finish normally). -/
def aggLens {α : Type} : ExtractResult α → Option (List Nat)
  | .ok out => some (out.pushed.map List.length)
  | _ => none

/-- The warning skip counts of a successful extractor run. -/
def warnsOf {α : Type} : ExtractResult α → Option (List Nat)
  | .ok out => some out.warnCounts
  | _ => none

/-- A valid fix record at latitude 49, longitude 8. -/
def fixA : NavSatFix :=
  { stampToSec := 0, latitude := .val 49, longitude := .val 8,
    altitude := .val 100, status := some 1, covariance0 := 4 }

/-- A valid fix record at latitude 10, longitude 100. -/
def fixB : NavSatFix :=
  { stampToSec := 1, latitude := .val 10, longitude := .val 100,
    altitude := .val 110, status := some 2, covariance0 := 9 }

/-- A valid fix record at latitude 50, longitude 9. -/
def fixC : NavSatFix :=
  { stampToSec := 2, latitude := .val 50, longitude := .val 9,
    altitude := .val 101, status := some 0, covariance0 := 1 }

/-- A fix record with NaN altitude, otherwise valid. -/
def fixNanAlt : NavSatFix :=
  { stampToSec := 3, latitude := .val 49, longitude := .val 8,
    altitude := .nan, status := some 1, covariance0 := 4 }

/-- **C1** (code bug): the claim says `positions` applies the standard UTM
projection to the record's `(latitude, longitude)` pair in that standard
argument order.  The code instead calls
`utm.from_latlon(rosmsg.longitude, rosmsg.latitude)`, passing longitude in
the latitude slot.  Evaluated at the failing input `[fixA, fixB]`
(latitudes 49 and 10, longitudes 8 and 100) with the pair-returning
projection stand-in: the source order gives the second record planar
offsets `(92, -39)` where the spec order (`positionsSpec`) gives
`(-39, 92)`, so the two disagree.  The claim's second half is visible in
the first tuple: its offsets are `(0, 0, 0)` under both orders. -/
theorem positions_swaps_utm_arguments :
  positions projPair sqrtId (some ()) "/gnss" [fixA, fixB] =
    .ok { header := some "/gnss"
          pushed := [[⟨0, 49, 8, 100, 0, 0, 0, 1, 4⟩,
                      ⟨1, 10, 100, 110, 92, -39, 10, 2, 9⟩]]
          warnCounts := [] }
  ∧ positionsSpec projPair sqrtId (some ()) "/gnss" [fixA, fixB] =
    .ok { header := some "/gnss"
          pushed := [[⟨0, 49, 8, 100, 0, 0, 0, 1, 4⟩,
                      ⟨1, 10, 100, 110, -39, 92, 10, 2, 9⟩]]
          warnCounts := [] }
  ∧ positions projPair sqrtId (some ()) "/gnss" [fixA, fixB] ≠
      positionsSpec projPair sqrtId (some ()) "/gnss" [fixA, fixB] := by
  have h1 : positions projPair sqrtId (some ()) "/gnss" [fixA, fixB] =
      ExtractResult.ok
        { header := some "/gnss",
          pushed := [[⟨0, 49, 8, 100, 0, 0, 0, 1, 4⟩,
                      ⟨1, 10, 100, 110, 92, -39, 10, 2, 9⟩]],
          warnCounts := [] } := by
    simp [positions, positionsLoop, fixA, fixB, projPair, sqrtId, invalidFix,
      RFloat.isnan, RFloat.toQ]
    norm_num
  have h2 : positionsSpec projPair sqrtId (some ()) "/gnss" [fixA, fixB] =
      ExtractResult.ok
        { header := some "/gnss",
          pushed := [[⟨0, 49, 8, 100, 0, 0, 0, 1, 4⟩,
                      ⟨1, 10, 100, 110, -39, 92, 10, 2, 9⟩]],
          warnCounts := [] } := by
    simp [positionsSpec, positionsSpecLoop, fixA, fixB, projPair, sqrtId, invalidFix,
      RFloat.isnan, RFloat.toQ]
    norm_num
  refine ⟨h1, h2, ?_⟩
  rw [h1, h2]
  intro hc
  simp only [ExtractResult.ok.injEq, ExtractOut.mk.injEq] at hc
  norm_num at hc

/-- **C2**: for every input stream (any projection and sqrt), `positions`
completes normally, pushes exactly one aggregate item whose list holds one
tuple per valid (non-skipped) record, and logs exactly one warning carrying
the skip count iff at least one record was skipped; concretely, 3 valid
records plus 1 NaN-altitude record give aggregate length 3 and one warning
with count 1. -/
theorem positions_skip_and_warn :
  (∀ (proj : ℚ → ℚ → ℚ × ℚ) (msqrt : ℚ → ℚ) (topic : String)
     (stream : List NavSatFix),
     positions proj msqrt (some ()) topic stream =
       .ok { header := some topic
             pushed := [(positionsLoop proj msqrt stream none 0 []).2]
             warnCounts :=
               if stream.countP invalidFix = 0 then []
               else [stream.countP invalidFix] }
     ∧ (positionsLoop proj msqrt stream none 0 []).2.length =
         (stream.filter (fun m => !invalidFix m)).length)
  ∧ aggLens (positions projPair sqrtId (some ()) "/gnss"
        [fixA, fixB, fixC, fixNanAlt]) = some [3]
  ∧ warnsOf (positions projPair sqrtId (some ()) "/gnss"
        [fixA, fixB, fixC, fixNanAlt]) = some [1] := by
  refine ⟨fun proj msqrt topic stream => ⟨?_, ?_⟩, by decide, by decide⟩
  · simp only [positions]
    rw [positionsLoop_fst proj msqrt stream]
    simp
  · rw [positionsLoop_snd_length proj msqrt stream]
    simp

/-- `np.arctan2(y, x)`, embedded as the argument of the complex number
`x + y*I` (the standard two-argument arctangent). -/
noncomputable def arctan2 (y x : ℝ) : ℝ := Complex.arg { re := x, im := y }

/-- The 3×3 rotation matrix `rot` that `yaw_angle` fills in from the
quaternion components `q1 = x`, `q2 = y`, `q3 = z`, `q4 = w`, entry by
entry as in the source. -/
noncomputable def yawRot (q1 q2 q3 q4 : ℝ) : Matrix (Fin 3) (Fin 3) ℝ :=
  !![1 - 2*q2*q2 - 2*q3*q3, 2*(q1*q2 - q3*q4), 2*(q1*q3 + q2*q4);
     2*(q1*q2 + q3*q4), 1 - 2*q1*q1 - 2*q3*q3, 2*(q2*q3 - q1*q4);
     2*(q1*q3 - q2*q4), 2*(q1*q4 + q2*q3), 1 - 2*q1*q1 - 2*q2*q2]

/-- `yaw_angle(frame)`: build `rot`, rotate the reference vector `[1,0,0]`
(`np.dot(rot, [1,0,0])`), and return `arctan2(vec[1], vec[0])`. -/
noncomputable def yaw_angle (q1 q2 q3 q4 : ℝ) : ℝ :=
  let vec := (yawRot q1 q2 q3 q4).mulVec ![1, 0, 0]
  arctan2 (vec 1) (vec 0)

/-- The standard quaternion rotation of the reference vector `(1,0,0)`:
conjugation `q * v * star q` of the pure quaternion `v = i` by the
quaternion `q = w + x*i + y*j + z*k`, its vector part read off as the
rotated vector.  This is the reference definition of "the standard
quaternion-to-rotation formula" that the code's matrix is checked
against. -/
noncomputable def quatRotateX (q1 q2 q3 q4 : ℝ) : Fin 3 → ℝ :=
  let q : Quaternion ℝ := ⟨q4, q1, q2, q3⟩
  let v : Quaternion ℝ := ⟨0, 1, 0, 0⟩
  let r := q * v * star q
  ![r.imI, r.imJ, r.imK]

/-- The quaternion of one `sensor_msgs/Imu` orientation field. -/
structure QuatMsg where
  x : RFloat
  y : RFloat
  z : RFloat
  w : RFloat
deriving DecidableEq

/-- One deserialized `sensor_msgs/Imu` record. -/
structure ImuMsg where
  stampToSec : ℚ
  orientation : QuatMsg
deriving DecidableEq

/-- The `while` loop of `imus`: skip records whose quaternion x-component
is NaN, otherwise append `[stamp, yaw_angle(orientation)]`. -/
noncomputable def imusLoop :
    List ImuMsg → Nat → List (ℚ × ℝ) → Nat × List (ℚ × ℝ)
  | [], erroneous, acc => (erroneous, acc)
  | m :: rest, erroneous, acc =>
    if m.orientation.x.isnan then
      imusLoop rest (erroneous + 1) acc
    else
      imusLoop rest erroneous
        (acc ++ [(m.stampToSec,
          yaw_angle (m.orientation.x.toQ : ℝ) (m.orientation.y.toQ : ℝ)
            (m.orientation.z.toQ : ℝ) (m.orientation.w.toQ : ℝ))])

/-- The `imus` node on one `foreach` stream instance.  Like `positions`, it
calls `pytype()` without a `None` check, so an unresolvable message type
raises an uncaught `TypeError`. -/
noncomputable def imus (pytype : Option Unit) (topic : String)
    (stream : List ImuMsg) : ExtractResult (ℚ × ℝ) :=
  match pytype with
  | none => .exception "TypeError: NoneType object is not callable"
  | some _ =>
    let r := imusLoop stream 0 []
    .ok { header := some topic
          pushed := [r.2]
          warnCounts := if r.1 = 0 then [] else [r.1] }

/-- One deserialized `nmea_navsat_driver/NavSatOrientation` record. -/
structure NavSatOrient where
  stampToSec : ℚ
  yaw : RFloat
deriving DecidableEq

/-- The `while` loop of `navsatorients`: skip records whose yaw is NaN,
otherwise append `[stamp, yaw]`. -/
def navsatorientsLoop :
    List NavSatOrient → Nat → List (ℚ × ℚ) → Nat × List (ℚ × ℚ)
  | [], erroneous, acc => (erroneous, acc)
  | m :: rest, erroneous, acc =>
    if m.yaw.isnan then navsatorientsLoop rest (erroneous + 1) acc
    else navsatorientsLoop rest erroneous (acc ++ [(m.stampToSec, m.yaw.toQ)])

/-- The `navsatorients` node on one `foreach` stream instance.  This is the
one extractor that checks `get_message_class` for `None`: it logs
`Message definition for <msg_type> not available` as an error and raises
`marv.Abort()`. -/
def navsatorients (pytype : Option Unit) (msgType : String) (topic : String)
    (stream : List NavSatOrient) : ExtractResult (ℚ × ℚ) :=
  match pytype with
  | none => .abort ["Message definition for " ++ msgType ++ " not available"]
  | some _ =>
    let r := navsatorientsLoop stream 0 []
    .ok { header := some topic
          pushed := [r.2]
          warnCounts := if r.1 = 0 then [] else [r.1] }

/-- One re-emit loop of the `orientations` merge node: pull items until the
input stream is exhausted, pushing each one. -/
def emitAll {α : Type} : List α → List α
  | [] => []
  | item :: rest => item :: emitAll rest

/-- The `orientations` merge node: all pushes of the first loop (over the
`imus` input) followed by all pushes of the second loop (over the
`navsatorients` input). -/
def orientations {α : Type} (imusIn navsatorientsIn : List α) : List α :=
  emitAll imusIn ++ emitAll navsatorientsIn

theorem emitAll_eq {α : Type} : ∀ (l : List α), emitAll l = l
  | [] => rfl
  | _ :: rest => by rw [emitAll, emitAll_eq rest]

theorem imusLoop_fst :
    ∀ (msgs : List ImuMsg) (err : Nat) (acc : List (ℚ × ℝ)),
      (imusLoop msgs err acc).1 =
        err + msgs.countP (fun m => m.orientation.x.isnan)
  | [], err, acc => by simp [imusLoop]
  | m :: rest, err, acc => by
    simp only [imusLoop]
    by_cases h : m.orientation.x.isnan = true
    · rw [if_pos h, imusLoop_fst rest]
      simp [List.countP_cons, h]
      omega
    · rw [if_neg h, imusLoop_fst rest]
      simp [List.countP_cons, h]

theorem imusLoop_snd_length :
    ∀ (msgs : List ImuMsg) (err : Nat) (acc : List (ℚ × ℝ)),
      (imusLoop msgs err acc).2.length =
        acc.length + (msgs.filter (fun m => !m.orientation.x.isnan)).length
  | [], err, acc => by simp [imusLoop]
  | m :: rest, err, acc => by
    simp only [imusLoop]
    by_cases h : m.orientation.x.isnan = true
    · rw [if_pos h, imusLoop_snd_length rest]
      simp [List.filter_cons, h]
    · rw [if_neg h, imusLoop_snd_length rest]
      simp [List.filter_cons, h]
      omega

theorem navsatorientsLoop_fst :
    ∀ (msgs : List NavSatOrient) (err : Nat) (acc : List (ℚ × ℚ)),
      (navsatorientsLoop msgs err acc).1 =
        err + msgs.countP (fun m => m.yaw.isnan)
  | [], err, acc => by simp [navsatorientsLoop]
  | m :: rest, err, acc => by
    simp only [navsatorientsLoop]
    by_cases h : m.yaw.isnan = true
    · rw [if_pos h, navsatorientsLoop_fst rest]
      simp [List.countP_cons, h]
      omega
    · rw [if_neg h, navsatorientsLoop_fst rest]
      simp [List.countP_cons, h]

theorem navsatorientsLoop_snd_length :
    ∀ (msgs : List NavSatOrient) (err : Nat) (acc : List (ℚ × ℚ)),
      (navsatorientsLoop msgs err acc).2.length =
        acc.length + (msgs.filter (fun m => !m.yaw.isnan)).length
  | [], err, acc => by simp [navsatorientsLoop]
  | m :: rest, err, acc => by
    simp only [navsatorientsLoop]
    by_cases h : m.yaw.isnan = true
    · rw [if_pos h, navsatorientsLoop_snd_length rest]
      simp [List.filter_cons, h]
    · rw [if_neg h, navsatorientsLoop_snd_length rest]
      simp [List.filter_cons, h]
      omega

/-- **C3**: the `orientations` merge node re-emits every item of its first
input (`imus`) in order, then every item of its second input
(`navsatorients`) in order, onto a single output; for inputs `[1, 2]` and
`[3, 4]` the output is exactly `[1, 2, 3, 4]`. -/
theorem orientations_concatenates :
  (∀ (α : Type) (a b : List α), orientations a b = a ++ b)
  ∧ orientations [1, 2] [3, 4] = [1, 2, 3, 4] := by
  have h : ∀ (α : Type) (a b : List α), orientations a b = a ++ b := by
    intro α a b
    rw [orientations, emitAll_eq, emitAll_eq]
  exact ⟨h, by rw [h]; rfl⟩

/-- **C6** (counterexample): the claim says every extractor logs an error
and terminates with `Abort` when the stream's message type cannot be
resolved.  `positions` does not: with `get_message_class` returning `None`
it raises an uncaught `TypeError` (from calling `pytype()`), not an
`Abort`. -/
theorem positions_unresolvable_no_abort :
  positions projPair sqrtId none "/gnss" [fixA] =
    .exception "TypeError: NoneType object is not callable"
  ∧ (positions projPair sqrtId none "/gnss" [fixA]).isAbort = false :=
  ⟨rfl, rfl⟩

/-- **C6** (amended): only `navsatorients` handles an unresolvable message
type by logging an error and raising `Abort`; `positions` and `imus` call
`pytype()` without the `None` check and raise an uncaught `TypeError`
instead. -/
theorem unresolvable_schema_behaviour :
  (∀ (msgType topic : String) (stream : List NavSatOrient),
     navsatorients none msgType topic stream =
       .abort ["Message definition for " ++ msgType ++ " not available"])
  ∧ (∀ (proj : ℚ → ℚ → ℚ × ℚ) (msqrt : ℚ → ℚ) (topic : String)
       (stream : List NavSatFix),
     positions proj msqrt none topic stream =
       .exception "TypeError: NoneType object is not callable")
  ∧ (∀ (topic : String) (stream : List ImuMsg),
     imus none topic stream =
       .exception "TypeError: NoneType object is not callable") :=
  ⟨fun _ _ _ => rfl, fun _ _ _ _ => rfl, fun _ _ => rfl⟩

/-- **C10**: on any stream with zero valid records (the empty stream
included), each of `positions`, `imus` and `navsatorients` (with its
message type resolvable) completes without aborting, pushes exactly one
aggregate item whose values list is empty, and emits a warning only when
records were skipped — in particular no warning when none were. -/
theorem extractors_on_zero_valid :
  (∀ (proj : ℚ → ℚ → ℚ × ℚ) (msqrt : ℚ → ℚ) (topic : String)
     (stream : List NavSatFix),
     stream.filter (fun m => !invalidFix m) = [] →
     positions proj msqrt (some ()) topic stream =
       .ok { header := some topic
             pushed := [[]]
             warnCounts :=
               if stream.countP invalidFix = 0 then []
               else [stream.countP invalidFix] })
  ∧ (∀ (topic : String) (stream : List ImuMsg),
     stream.filter (fun m => !m.orientation.x.isnan) = [] →
     imus (some ()) topic stream =
       .ok { header := some topic
             pushed := [[]]
             warnCounts :=
               if stream.countP (fun m => m.orientation.x.isnan) = 0 then []
               else [stream.countP (fun m => m.orientation.x.isnan)] })
  ∧ (∀ (msgType topic : String) (stream : List NavSatOrient),
     stream.filter (fun m => !m.yaw.isnan) = [] →
     navsatorients (some ()) msgType topic stream =
       .ok { header := some topic
             pushed := [[]]
             warnCounts :=
               if stream.countP (fun m => m.yaw.isnan) = 0 then []
               else [stream.countP (fun m => m.yaw.isnan)] }) := by
  refine ⟨fun proj msqrt topic stream h => ?_, fun topic stream h => ?_,
    fun msgType topic stream h => ?_⟩
  · have hlen : (positionsLoop proj msqrt stream none 0 []).2.length = 0 := by
      rw [positionsLoop_snd_length, h]
      simp
    have hnil := List.length_eq_zero.mp hlen
    simp only [positions, hnil]
    rw [positionsLoop_fst proj msqrt stream]
    simp
  · have hlen : (imusLoop stream 0 []).2.length = 0 := by
      rw [imusLoop_snd_length, h]
      simp
    have hnil := List.length_eq_zero.mp hlen
    simp only [imus, hnil]
    rw [imusLoop_fst stream]
    simp
  · have hlen : (navsatorientsLoop stream 0 []).2.length = 0 := by
      rw [navsatorientsLoop_snd_length, h]
      simp
    have hnil := List.length_eq_zero.mp hlen
    simp only [navsatorients, hnil]
    rw [navsatorientsLoop_fst stream]
    simp

/-- Witness for the preceding theorem at the empty stream: each extractor
pushes one empty aggregate and no warning. -/
theorem extractors_on_zero_valid_witness :
  positions projPair sqrtId (some ()) "/gnss" [] =
    .ok { header := some "/gnss", pushed := [[]], warnCounts := [] }
  ∧ imus (some ()) "/imu" [] =
    .ok { header := some "/imu", pushed := [[]], warnCounts := [] }
  ∧ navsatorients (some ()) "NavSatOrientation" "/orient" [] =
    .ok { header := some "/orient", pushed := [[]], warnCounts := [] } := by
  refine ⟨?_, ?_, ?_⟩
  · have := extractors_on_zero_valid.1 projPair sqrtId "/gnss" [] rfl
    simpa using this
  · have := extractors_on_zero_valid.2.1 "/imu" [] rfl
    simpa using this
  · have := extractors_on_zero_valid.2.2 "NavSatOrientation" "/orient" [] rfl
    simpa using this

theorem yaw_angle_eq (q1 q2 q3 q4 : ℝ) :
    yaw_angle q1 q2 q3 q4 =
      arctan2 ((yawRot q1 q2 q3 q4).mulVec ![1, 0, 0] 1)
              ((yawRot q1 q2 q3 q4).mulVec ![1, 0, 0] 0) := rfl

/-- **C4**: `yaw_angle` builds the rotation matrix of the quaternion
`(x, y, z, w)` by the standard quaternion-to-rotation formula (for a unit
quaternion, rotating `(1,0,0)` by the matrix agrees with quaternion
conjugation `q * i * star q`), rotates the reference vector `(1,0,0)` and
returns `arctan2(rotated.y, rotated.x)`; the identity quaternion
`(0,0,0,1)` yields yaw `0`, and the 90°-yaw quaternion
`(0, 0, √2/2, √2/2)` yields yaw `π/2` exactly. -/
theorem yaw_angle_standard :
  (∀ q1 q2 q3 q4 : ℝ, q1^2 + q2^2 + q3^2 + q4^2 = 1 →
     (yawRot q1 q2 q3 q4).mulVec ![1, 0, 0] = quatRotateX q1 q2 q3 q4)
  ∧ (∀ q1 q2 q3 q4 : ℝ,
     yaw_angle q1 q2 q3 q4 =
       arctan2 ((yawRot q1 q2 q3 q4).mulVec ![1, 0, 0] 1)
               ((yawRot q1 q2 q3 q4).mulVec ![1, 0, 0] 0))
  ∧ yaw_angle 0 0 0 1 = 0
  ∧ yaw_angle 0 0 (Real.sqrt 2 / 2) (Real.sqrt 2 / 2) = Real.pi / 2 := by
  refine ⟨?_, yaw_angle_eq, ?_, ?_⟩
  · intro q1 q2 q3 q4 h
    funext i
    fin_cases i
    · simp [yawRot, quatRotateX, Matrix.mulVec, Matrix.dotProduct,
        Fin.sum_univ_three, Quaternion.mul_re, Quaternion.mul_imI,
        Quaternion.mul_imJ, Quaternion.mul_imK]
      linear_combination -h
    · simp [yawRot, quatRotateX, Matrix.mulVec, Matrix.dotProduct,
        Fin.sum_univ_three, Quaternion.mul_re, Quaternion.mul_imI,
        Quaternion.mul_imJ, Quaternion.mul_imK]
      ring
    · simp [yawRot, quatRotateX, Matrix.mulVec, Matrix.dotProduct,
        Fin.sum_univ_three, Quaternion.mul_re, Quaternion.mul_imI,
        Quaternion.mul_imJ, Quaternion.mul_imK]
      ring
  · rw [yaw_angle_eq]
    have hv1 : ((yawRot 0 0 0 1).mulVec ![1, 0, 0]) 1 = 0 := by
      simp [yawRot, Matrix.mulVec, Matrix.dotProduct, Fin.sum_univ_three]
    have hv0 : ((yawRot 0 0 0 1).mulVec ![1, 0, 0]) 0 = 1 := by
      simp [yawRot, Matrix.mulVec, Matrix.dotProduct, Fin.sum_univ_three]
    rw [hv0, hv1, arctan2]
    rw [show ({ re := 1, im := 0 } : ℂ) = 1 from by simp [Complex.ext_iff]]
    exact Complex.arg_one
  · rw [yaw_angle_eq]
    have h2 : Real.sqrt 2 * Real.sqrt 2 = 2 := Real.mul_self_sqrt (by norm_num)
    have hv1 : ((yawRot 0 0 (Real.sqrt 2 / 2) (Real.sqrt 2 / 2)).mulVec
        ![1, 0, 0]) 1 = 1 := by
      simp [yawRot, Matrix.mulVec, Matrix.dotProduct, Fin.sum_univ_three]
      nlinarith [h2]
    have hv0 : ((yawRot 0 0 (Real.sqrt 2 / 2) (Real.sqrt 2 / 2)).mulVec
        ![1, 0, 0]) 0 = 0 := by
      simp [yawRot, Matrix.mulVec, Matrix.dotProduct, Fin.sum_univ_three]
      nlinarith [h2]
    rw [hv0, hv1, arctan2]
    rw [show ({ re := 0, im := 1 } : ℂ) = Complex.I from by simp [Complex.ext_iff]]
    exact Complex.arg_I

/-- Witness for the quaternion-conjugation conjunct at the identity
quaternion, a concrete unit quaternion. -/
theorem yaw_angle_standard_witness :
  (0:ℝ)^2 + 0^2 + 0^2 + 1^2 = 1 ∧
  (yawRot 0 0 0 1).mulVec ![1, 0, 0] = quatRotateX 0 0 0 1 :=
  ⟨by norm_num, yaw_angle_standard.1 0 0 0 1 (by norm_num)⟩

/-- A stream handle as a dependent node sees it after pulling its inputs:
the upstream header title plus the items the upstream pushed.  An absent
(aborted) input is modelled as `none` at the use site. -/
structure StreamHandle (α : Type) where
  title : String
  items : List α
deriving DecidableEq

/-- The per-title sanitization inside the artifact name expression of
`gnss_plots`: `x.replace('/', ':')[1:]`. -/
def sanitizeTitle (s : String) : String := (s.replace "/" ":").drop 1

/-- The artifact name of `gnss_plots` as a function of the two source
titles: `'__'.join(sanitized titles) + '.jpg'`. -/
def plotName (gtitle otitle : String) : String :=
  sanitizeTitle gtitle ++ "__" ++ sanitizeTitle otitle ++ ".jpg"

/-- What a successful `gnss_plots` run produced: the header title, the
artifact name handed to `make_file`, the gps aggregate plotted, the
orientation aggregate plotted (empty when proceeding orientation-less) and
the warnings logged.  The matplotlib rendering of these values is an
external effect and is not modelled. -/
structure PlotOut (β : Type) where
  headerTitle : String
  artifactName : String
  gpsValues : List PosTuple
  orientValues : List β
  warnings : List String
deriving DecidableEq

/-- Outcome of one `gnss_plots` run. -/
inductive PlotResult (β : Type) where
  | ok : PlotOut β → PlotResult β
  | abort : List String → PlotResult β
  | exception : String → PlotResult β
deriving DecidableEq

/-- The effective orientation title of `gnss_plots`: the orientation
handle's title when the handle is present and an aggregate could be pulled
from it, otherwise the substitute `none` (set in the warning branch, which
also overwrites a previously read title when the stream was empty). -/
def effOtitle {β : Type} (orientation : Option (StreamHandle (List β))) :
    String :=
  match orientation, orientation.bind (fun o => o.items.head?) with
  | some o, some _ => o.title
  | _, _ => "none"

/-- The `gnss_plots` node.  Its inputs are the handles obtained by
`pull_all(gps, orientation)` (`none` models an absent input).  No gps
handle: log `No gps messages` as an error and raise `Abort`.  Pulling from
a present but empty gps stream would subscript `None` — an uncaught
`TypeError`.  No orientation aggregate: log the warning, title the
orientation `none` and proceed orientation-less. -/
def gnss_plots {β : Type} (gps : Option (StreamHandle (List PosTuple)))
    (orientation : Option (StreamHandle (List β))) : PlotResult β :=
  match gps with
  | none => .abort ["No gps messages"]
  | some g =>
    match g.items.head? with
    | none => .exception "TypeError: NoneType object is not subscriptable"
    | some gvals =>
      let opull : Option (List β) := orientation.bind (fun o => o.items.head?)
      let otitle :=
        match orientation, opull with
        | some o, some _ => o.title
        | _, _ => "none"
      .ok { headerTitle := g.title ++ " with " ++ otitle
            artifactName := plotName g.title otitle
            gpsValues := gvals
            orientValues := opull.getD []
            warnings := if opull.isNone then ["No orientations found"]
                        else [] }

theorem gnss_plots_ok_shape {β : Type} (g : StreamHandle (List PosTuple))
    (orientation : Option (StreamHandle (List β))) (gvals : List PosTuple)
    (h : g.items.head? = some gvals) :
    gnss_plots (some g) orientation =
      .ok { headerTitle := g.title ++ " with " ++ effOtitle orientation
            artifactName := plotName g.title (effOtitle orientation)
            gpsValues := gvals
            orientValues :=
              (orientation.bind (fun o => o.items.head?)).getD []
            warnings :=
              if (orientation.bind (fun o => o.items.head?)).isNone
              then ["No orientations found"] else [] } := by
  rcases orientation with _ | o
  · simp [gnss_plots, h, effOtitle]
  · rcases ho : o.items.head? with _ | ovals
    · simp [gnss_plots, h, ho, effOtitle]
    · simp [gnss_plots, h, ho, effOtitle]

theorem gnss_plots_no_gps_message {β : Type}
    (g : StreamHandle (List PosTuple))
    (orientation : Option (StreamHandle (List β)))
    (h : g.items.head? = none) :
    gnss_plots (some g) orientation =
      .exception "TypeError: NoneType object is not subscriptable" := by
  simp [gnss_plots, h]

/-- **C5**: `gnss_plots` terminates with `Abort` (after logging the error
`No gps messages`) whenever its position input is absent; when only the
orientation input is absent it does not abort: it logs the warning
`No orientations found`, substitutes the orientation title `none`, and
produces the plot artifact orientation-less. -/
theorem gnss_plots_absent_inputs :
  (∀ (β : Type) (orientation : Option (StreamHandle (List β))),
     gnss_plots none orientation = .abort ["No gps messages"])
  ∧ (∀ (β : Type) (g : StreamHandle (List PosTuple)) (gvals : List PosTuple),
     g.items.head? = some gvals →
     gnss_plots (β := β) (some g) none =
       .ok { headerTitle := g.title ++ " with none"
             artifactName := plotName g.title "none"
             gpsValues := gvals
             orientValues := []
             warnings := ["No orientations found"] }) := by
  refine ⟨fun β orientation => rfl, fun β g gvals h => ?_⟩
  rw [gnss_plots_ok_shape g none gvals h]
  have hs : (" with " ++ "none" : String) = " with none" := rfl
  rw [show effOtitle (β := β) none = "none" from rfl, String.append_assoc, hs]
  rfl

/-- Witness: with a present gps aggregate and no orientation input,
`gnss_plots` pushes the orientation-less artifact and warns. -/
theorem gnss_plots_absent_inputs_witness :
  (⟨"/gnss", [[]]⟩ : StreamHandle (List PosTuple)).items.head? = some []
  ∧ gnss_plots (β := ℚ × ℚ) (some ⟨"/gnss", [[]]⟩) none =
      .ok { headerTitle := "/gnss" ++ " with none"
            artifactName := plotName "/gnss" "none"
            gpsValues := []
            orientValues := []
            warnings := ["No orientations found"] } :=
  ⟨rfl, gnss_plots_absent_inputs.2 (ℚ × ℚ) ⟨"/gnss", [[]]⟩ [] rfl⟩

/-- **C8**: every successful `gnss_plots` run names its artifact
`plotName` of the two source titles (separators sanitized) and heads its
output `<position-title> with <orientation-title-or-none>`; two runs whose
inputs carry identical titles produce identical artifact names. -/
theorem gnss_plots_name_pure :
  (∀ (β : Type) (g : StreamHandle (List PosTuple))
     (orientation : Option (StreamHandle (List β))) (out : PlotOut β),
     gnss_plots (some g) orientation = .ok out →
     out.artifactName = plotName g.title (effOtitle orientation)
     ∧ out.headerTitle = g.title ++ " with " ++ effOtitle orientation)
  ∧ (∀ (β γ : Type) (g1 g2 : StreamHandle (List PosTuple))
       (o1 : Option (StreamHandle (List β)))
       (o2 : Option (StreamHandle (List γ)))
       (out1 : PlotOut β) (out2 : PlotOut γ),
     gnss_plots (some g1) o1 = .ok out1 →
     gnss_plots (some g2) o2 = .ok out2 →
     g1.title = g2.title → effOtitle o1 = effOtitle o2 →
     out1.artifactName = out2.artifactName) := by
  have key : ∀ (β : Type) (g : StreamHandle (List PosTuple))
      (orientation : Option (StreamHandle (List β))) (out : PlotOut β),
      gnss_plots (some g) orientation = .ok out →
      out.artifactName = plotName g.title (effOtitle orientation)
      ∧ out.headerTitle = g.title ++ " with " ++ effOtitle orientation := by
    intro β g orientation out h
    rcases hg : g.items.head? with _ | gvals
    · rw [gnss_plots_no_gps_message g orientation hg] at h
      exact absurd h (by simp)
    · rw [gnss_plots_ok_shape g orientation gvals hg] at h
      have hout := (PlotResult.ok.injEq _ _).mp h.symm
      rw [hout]
      exact ⟨rfl, rfl⟩
  refine ⟨key, ?_⟩
  intro β γ g1 g2 o1 o2 out1 out2 h1 h2 ht ho
  rw [(key β g1 o1 out1 h1).1, (key γ g2 o2 out2 h2).1, ht, ho]

/-- Witness: two runs with titles `/gnss` and `/imu` on both sides (one
orientation carrying values, data otherwise different) produce the same
artifact name, and the shape conjunct applies at a concrete run. -/
theorem gnss_plots_name_pure_witness :
  (gnss_plots (β := ℚ × ℚ) (some ⟨"/gnss", [[]]⟩)
      (some ⟨"/imu", [[(0, 1)]]⟩) =
    .ok { headerTitle := "/gnss" ++ " with " ++ "/imu"
          artifactName := plotName "/gnss" "/imu"
          gpsValues := []
          orientValues := [(0, 1)]
          warnings := [] })
  ∧ (plotName "/gnss" (effOtitle (β := ℚ × ℚ) (some ⟨"/imu", [[(0, 1)]]⟩)) =
      plotName "/gnss" "/imu") := by
  have hrun : gnss_plots (β := ℚ × ℚ) (some ⟨"/gnss", [[]]⟩)
      (some ⟨"/imu", [[(0, 1)]]⟩) =
      .ok { headerTitle := "/gnss" ++ " with " ++ "/imu"
            artifactName := plotName "/gnss" "/imu"
            gpsValues := []
            orientValues := [(0, 1)]
            warnings := [] } := by
    rw [gnss_plots_ok_shape ⟨"/gnss", [[]]⟩ (some ⟨"/imu", [[(0, 1)]]⟩) [] rfl]
    rfl
  have happ := (gnss_plots_name_pure.1 (ℚ × ℚ) ⟨"/gnss", [[]]⟩
      (some ⟨"/imu", [[(0, 1)]]⟩)
      { headerTitle := "/gnss" ++ " with " ++ "/imu"
        artifactName := plotName "/gnss" "/imu"
        gpsValues := []
        orientValues := [(0, 1)]
        warnings := [] } hrun).1
  exact ⟨hrun, happ.symm⟩

/-- A file artifact reference as widgets see it (`relpath`). -/
structure MFile where
  relpath : String
deriving DecidableEq

/-- The widget payloads built by the detail assemblers. -/
inductive WidgetPayload where
  | image : String → WidgetPayload
  | gallery : List String → WidgetPayload
  | table : List String → List (List String) → WidgetPayload
  | video : String → WidgetPayload
  | mapRef : String → WidgetPayload
deriving DecidableEq

/-- A dashboard widget: its optional `title` entry plus its payload. -/
structure MWidget where
  title : Option String
  payload : WidgetPayload
deriving DecidableEq

/-- A detail section: a title plus the ordered widget list. -/
structure MSection where
  title : String
  widgets : List MWidget
deriving DecidableEq

/-- Outcome of one section-assembler run: a pushed section, no push at all
(the assembler finished without emitting), a `marv.Abort`, or a failed
`assert`. -/
inductive SecResult where
  | pushed : MSection → SecResult
  | nothing : SecResult
  | abort : SecResult
  | assertFailed : SecResult
deriving DecidableEq

/-- `gnss_section`: wraps the single `gnss_plots` handle in a list (no
foreach yet), pulls one plot file from each, builds an image widget per
file obtained, asserts that widget titles are unique, and pushes the
section only if any widget resulted. -/
def gnss_section (title : String) (plots : StreamHandle MFile) : SecResult :=
  let widgets : List MWidget :=
    match plots.items.head? with
    | some plotfile => [⟨some plots.title, .image plotfile.relpath⟩]
    | none => []
  if (widgets.map MWidget.title).Nodup then
    if widgets.isEmpty then .nothing else .pushed ⟨title, widgets⟩
  else .assertFailed

/-- The `galleries` node on one images stream: collects the image relpaths
and pushes one gallery widget titled with the stream title. -/
def galleries (stream : StreamHandle MFile) : MWidget :=
  ⟨some stream.title, .gallery (stream.items.map MFile.relpath)⟩

/-- A handle to one `galleries` instance as `images_section` sees it: the
instance's stream title and the single widget it pushed. -/
structure GalleryHandle where
  title : String
  widget : MWidget
deriving DecidableEq

/-- `images_section`: drains the stream of gallery streams, sorts them by
title, pulls each one's single widget (`pull_all`) and pushes a section
only if any widget resulted. -/
def images_section (title : String) (gs : List GalleryHandle) : SecResult :=
  let sorted := List.insertionSort (fun a b => a.title ≤ b.title) gs
  let widgets := sorted.map GalleryHandle.widget
  if widgets.isEmpty then .nothing else .pushed ⟨title, widgets⟩

/-- One topic row of the bag metadata. -/
structure Topic where
  name : String
  msgType : String
  msgCount : Nat
deriving DecidableEq

/-- `topics_section`: a single (untitled) table widget listing all topics;
the push is unconditional and the widget list is never empty. -/
def topics_section (title : String) (topics : List Topic) : SecResult :=
  let columns := ["Topic", "Message type", "Message count"]
  let rows := topics.map (fun t => [t.name, t.msgType, toString t.msgCount])
  .pushed ⟨title, [⟨none, .table columns rows⟩]⟩

/-- `trajectory_section`: aborts when the pulled geojson is absent or falsy
(empty); otherwise serializes the map descriptor to `data.json` and pushes
a section with one map widget referencing it. -/
def trajectory_section (title : String) (geojson : Option String) :
    SecResult :=
  match geojson with
  | none => .abort
  | some g =>
    if g = "" then .abort
    else .pushed ⟨title, [⟨none, .mapRef "marv-partial:data.json"⟩]⟩

/-- A handle to one `ffmpeg` instance as `video_section` sees it: its
stream title and the video file it yielded. -/
structure VideoHandle where
  title : String
  file : MFile
deriving DecidableEq

/-- `video_section`: drains the videos stream, sorts by title, aborts when
no videos resulted, builds one video widget per stream, asserts widget
title uniqueness, and pushes the section only if any widget resulted. -/
def video_section (title : String) (vs : List VideoHandle) : SecResult :=
  let videos := List.insertionSort (fun a b => a.title ≤ b.title) vs
  if videos.isEmpty then .abort
  else
    let widgets := videos.map
      (fun v => (⟨some v.title, .video v.file.relpath⟩ : MWidget))
    if (widgets.map MWidget.title).Nodup then
      if widgets.isEmpty then .nothing else .pushed ⟨title, widgets⟩
    else .assertFailed

/-- **C7**: a section assembler that ends up with zero widgets emits no
Section at all; `trajectory_section` and `video_section` instead raise
`Abort` explicitly when they would otherwise be empty; and every Section
any assembler does push carries a non-empty widget list. -/
theorem sections_never_empty :
  (∀ (t : String) (p : StreamHandle MFile) (s : MSection),
     gnss_section t p = .pushed s → s.widgets ≠ [])
  ∧ (∀ (t : String) (p : StreamHandle MFile),
     p.items.head? = none → gnss_section t p = .nothing)
  ∧ (∀ (t : String) (gs : List GalleryHandle) (s : MSection),
     images_section t gs = .pushed s → s.widgets ≠ [])
  ∧ (∀ t : String, images_section t [] = .nothing)
  ∧ (∀ (t : String) (tops : List Topic) (s : MSection),
     topics_section t tops = .pushed s → s.widgets ≠ [])
  ∧ (∀ t : String, trajectory_section t none = .abort)
  ∧ (∀ (t : String) (g : Option String) (s : MSection),
     trajectory_section t g = .pushed s → s.widgets ≠ [])
  ∧ (∀ t : String, video_section t [] = .abort)
  ∧ (∀ (t : String) (vs : List VideoHandle) (s : MSection),
     video_section t vs = .pushed s → s.widgets ≠ []) := by
  refine ⟨?_, ?_, ?_, ?_, ?_, ?_, ?_, ?_, ?_⟩
  · intro t p s h
    rcases hp : p.items.head? with _ | f
    · simp [gnss_section, hp] at h
    · simp [gnss_section, hp] at h
      subst h
      simp
  · intro t p hp
    simp [gnss_section, hp]
  · intro t gs s h
    simp only [images_section] at h
    split_ifs at h with h1
    injection h with h4
    subst h4
    intro hc
    exact h1 (List.isEmpty_iff.mpr hc)
  · intro t
    simp [images_section]
  · intro t tops s h
    simp only [topics_section] at h
    injection h with h4
    subst h4
    simp
  · intro t
    rfl
  · intro t g s h
    rcases g with _ | g
    · exact absurd h (by simp [trajectory_section])
    · simp only [trajectory_section] at h
      split_ifs at h with h1
      injection h with h4
      subst h4
      simp
  · intro t
    rfl
  · intro t vs s h
    simp only [video_section] at h
    split_ifs at h with h1 h2 h3
    injection h with h4
    subst h4
    intro hc
    exact h3 (List.isEmpty_iff.mpr hc)

/-- Witness: concrete empty inputs — `gnss_section` with no plot emits
nothing, `trajectory_section` with no geojson aborts, `video_section` with
no videos aborts. -/
theorem sections_never_empty_witness :
  gnss_section "Position and Orientation" ⟨"/gnss_plots", []⟩ = .nothing
  ∧ trajectory_section "Trajectory" none = .abort
  ∧ video_section "Videos" [] = .abort :=
  ⟨sections_never_empty.2.1 "Position and Orientation" ⟨"/gnss_plots", []⟩ rfl,
   sections_never_empty.2.2.2.2.2.1 "Trajectory",
   sections_never_empty.2.2.2.2.2.2.2.1 "Videos"⟩

/-- **C9**: widget titles inside any pushed Section are pairwise distinct,
given that the upstream `foreach` stream titles feeding an assembler are
themselves distinct (one instance per topic) and, for `images_section`,
that each gallery widget carries its own stream's title as `galleries`
sets it; in particular the uniqueness asserts of `gnss_section` (at most
one widget) and `video_section` never fail for such inputs. -/
theorem widget_titles_unique :
  (∀ (t : String) (p : StreamHandle MFile), gnss_section t p ≠ .assertFailed)
  ∧ (∀ (t : String) (p : StreamHandle MFile) (s : MSection),
     gnss_section t p = .pushed s → (s.widgets.map MWidget.title).Nodup)
  ∧ (∀ (t : String) (vs : List VideoHandle),
     (vs.map VideoHandle.title).Nodup → video_section t vs ≠ .assertFailed)
  ∧ (∀ (t : String) (vs : List VideoHandle) (s : MSection),
     (vs.map VideoHandle.title).Nodup → video_section t vs = .pushed s →
     (s.widgets.map MWidget.title).Nodup)
  ∧ (∀ (t : String) (gs : List GalleryHandle) (s : MSection),
     (gs.map GalleryHandle.title).Nodup →
     (∀ g ∈ gs, g.widget.title = some g.title) →
     images_section t gs = .pushed s → (s.widgets.map MWidget.title).Nodup)
  ∧ (∀ (t : String) (tops : List Topic) (s : MSection),
     topics_section t tops = .pushed s → (s.widgets.map MWidget.title).Nodup)
  ∧ (∀ (t : String) (g : Option String) (s : MSection),
     trajectory_section t g = .pushed s →
     (s.widgets.map MWidget.title).Nodup) := by
  have key_v : ∀ (vs : List VideoHandle), (vs.map VideoHandle.title).Nodup →
      (((List.insertionSort (fun a b => a.title ≤ b.title) vs).map
        (fun v => (⟨some v.title, .video v.file.relpath⟩ : MWidget))).map
          MWidget.title).Nodup := by
    intro vs hnd
    have hperm :=
      (List.perm_insertionSort (fun a b => a.title ≤ b.title) vs).map
        VideoHandle.title
    have hnd2 : ((List.insertionSort (fun a b => a.title ≤ b.title) vs).map
        VideoHandle.title).Nodup := hperm.nodup_iff.mpr hnd
    have hmap : ((List.insertionSort (fun a b => a.title ≤ b.title) vs).map
        (fun v => (⟨some v.title, .video v.file.relpath⟩ : MWidget))).map
          MWidget.title =
        ((List.insertionSort (fun a b => a.title ≤ b.title) vs).map
          VideoHandle.title).map some := by
      rw [List.map_map, List.map_map]
      rfl
    rw [hmap]
    exact hnd2.map (Option.some_injective _)
  refine ⟨?_, ?_, ?_, ?_, ?_, ?_, ?_⟩
  · intro t p hcontra
    rcases hp : p.items.head? with _ | f
    · simp [gnss_section, hp] at hcontra
    · simp [gnss_section, hp] at hcontra
  · intro t p s h
    rcases hp : p.items.head? with _ | f
    · simp [gnss_section, hp] at h
    · simp [gnss_section, hp] at h
      subst h
      simp
  · intro t vs hnd hcontra
    simp only [video_section] at hcontra
    split_ifs at hcontra with h1 h2
    exact h2 (key_v vs hnd)
  · intro t vs s hnd h
    simp only [video_section] at h
    split_ifs at h with h1 h2 h3
    injection h with h4
    subst h4
    exact key_v vs hnd
  · intro t gs s hnd hall h
    simp only [images_section] at h
    split_ifs at h with h1
    injection h with h4
    subst h4
    show (((List.insertionSort (fun a b => a.title ≤ b.title) gs).map
      GalleryHandle.widget).map MWidget.title).Nodup
    rw [List.map_map]
    have hmem : ∀ g ∈ List.insertionSort (fun a b => a.title ≤ b.title) gs,
        (MWidget.title ∘ GalleryHandle.widget) g = (fun x => some x.title) g := by
      intro g hg
      exact hall g ((List.perm_insertionSort
        (fun a b => a.title ≤ b.title) gs).subset hg)
    rw [List.map_congr_left hmem]
    have hperm :=
      (List.perm_insertionSort (fun a b => a.title ≤ b.title) gs).map
        GalleryHandle.title
    have hnd2 : ((List.insertionSort (fun a b => a.title ≤ b.title) gs).map
        GalleryHandle.title).Nodup := hperm.nodup_iff.mpr hnd
    have hmap : (List.insertionSort (fun a b => a.title ≤ b.title) gs).map
        (fun x => some x.title) =
        ((List.insertionSort (fun a b => a.title ≤ b.title) gs).map
          GalleryHandle.title).map some := by
      rw [List.map_map]
      rfl
    rw [hmap]
    exact hnd2.map (Option.some_injective _)
  · intro t tops s h
    simp only [topics_section] at h
    injection h with h4
    subst h4
    simp
  · intro t g s h
    rcases g with _ | g
    · exact absurd h (by simp [trajectory_section])
    · simp only [trajectory_section] at h
      split_ifs at h with h1
      injection h with h4
      subst h4
      simp

/-- Witness: `video_section` on one concrete video handle pushes a section
whose widget titles are distinct. -/
theorem widget_titles_unique_witness :
  ((MSection.mk "Videos"
      [⟨some "/cam", .video "cam.mp4"⟩]).widgets.map MWidget.title).Nodup :=
  widget_titles_unique.2.2.2.1 "Videos" [⟨"/cam", ⟨"cam.mp4"⟩⟩]
    ⟨"Videos", [⟨some "/cam", .video "cam.mp4"⟩]⟩ (by decide) (by decide)
